import Mathlib

/-!
Verification of the terraform-provider-akamai fragment: the per-resource DNS
record reconciler (Create / Update decision logic, modelled from the design
document because only its test file is present in the sources) and the
provider registry (`Provider`, `mergeSchema`, `mergeResource` from
pkg/akamai/provider.go, translated directly from the Go source).

Go maps are modelled as association lists `List (String × α)` together with a
first-match lookup; a map produced by Go has distinct keys, which appears as a
`Nodup` hypothesis where it matters.  A Go `panic` is modelled as `none` in an
`Option`-valued result.
-/

namespace Akamai

/-! ## DNS record reconciler: data model -/

/-- The declared configuration of a managed DNS record (zone, name,
record type, TTL, ordered raw data values, active flag). -/
structure RecordSpec where
  zone : String
  name : String
  recordType : String
  ttl : Nat
  target : List String
  active : Bool
deriving DecidableEq, Repr

/-- The remote platform's view of a record, as returned by GetRecord and as
carried by write calls (mirrors dns.RecordBody). -/
structure RecordBody where
  name : String
  recordType : String
  ttl : Nat
  target : List String
  active : Bool
deriving DecidableEq, Repr

/-- Outcome of one GetRecord invocation against the target triple:
not-found (the expected signal driving the create branch), a found record,
or any other remote failure (propagated, no write issued). -/
inductive ReadResult where
  | notFound : ReadResult
  | found : RecordBody → ReadResult
  | failure : Nat → ReadResult
deriving DecidableEq, Repr

/-- A write call issued against the remote API. -/
inductive WriteCall where
  | createRecord : RecordBody → String → WriteCall
  | updateRecord : RecordBody → String → WriteCall
  | deleteRecord : RecordBody → String → WriteCall
deriving DecidableEq, Repr

/-- Whether a write call is a CreateRecord call. -/
def WriteCall.isCreate : WriteCall → Bool
  | WriteCall.createRecord _ _ => true
  | _ => false

/-- Whether a write call is an UpdateRecord call. -/
def WriteCall.isUpdate : WriteCall → Bool
  | WriteCall.updateRecord _ _ => true
  | _ => false

/-- The data values carried by a write call. -/
def WriteCall.data : WriteCall → List String
  | WriteCall.createRecord b _ => b.target
  | WriteCall.updateRecord b _ => b.target
  | WriteCall.deleteRecord b _ => b.target

/-- The record body a write payload is built from: the spec's identity
fields together with the chosen data values. -/
def specBody (S : RecordSpec) (data : List String) : RecordBody :=
  { name := S.name, recordType := S.recordType, ttl := S.ttl,
    target := data, active := S.active }

/-- Modelled from the spec: the Create operation of the per-resource DNS
reconciler (its resource source file is absent from src/; only the test file
is present).  `t` is the pure ProcessRdata transform; `reads` lists the
successive GetRecord results observed during this logical Create, of which
the first decides the branch.  Not-found: one CreateRecord write carrying the
transform of the spec's own raw values.  Found: the existing record's raw
values are transformed; an empty result takes the save path (overwrite in
place with the spec's own declared raw values), a non-empty result is the
authoritative deduplicated target data and one UpdateRecord write is issued
instead.  Any other read failure is propagated with no write. -/
def createOp (t : List String → String → List String)
    (reads : List ReadResult) (S : RecordSpec) : List WriteCall :=
  match reads with
  | [] => []
  | ReadResult.notFound :: _ =>
      [WriteCall.createRecord (specBody S (t S.target S.recordType)) S.zone]
  | ReadResult.found existing :: _ =>
      let processed := t existing.target S.recordType
      if processed = [] then
        [WriteCall.createRecord (specBody S S.target) S.zone]
      else
        [WriteCall.updateRecord (specBody S processed) S.zone]
  | ReadResult.failure _ :: _ => []

/-- Modelled from the spec: the Update operation recomputes processed data
from the current spec values and issues an Update write unconditionally. -/
def updateOp (t : List String → String → List String)
    (S : RecordSpec) : WriteCall :=
  WriteCall.updateRecord (specBody S (t S.target S.recordType)) S.zone

/-- `n` successive invocations of the Update operation with an unchanged
spec; each invocation recomputes its payload from the spec. -/
def updateRun (t : List String → String → List String)
    (S : RecordSpec) : Nat → List WriteCall
  | 0 => []
  | n + 1 => updateOp t S :: updateRun t S n

/-! ## Provider registry: pkg/akamai/provider.go

Go maps appear as association lists with first-match lookup; the values held
by the schema and resource maps are pointers this code never inspects, so
they stay type parameters `σ` (schema values) and `ρ` (resource values). -/

/-- First-match lookup in an association list, modelling the Go map index
expression with its presence test. -/
def mapLookup {α : Type} (m : List (String × α)) (k : String) : Option α :=
  match m with
  | [] => none
  | (k2, v) :: rest => if k2 = k then some v else mapLookup rest k

/-- Go map assignment m[k] = v: replaces the entry when the key is present,
appends it otherwise. -/
def mapSet {α : Type} (m : List (String × α)) (k : String) (v : α) :
    List (String × α) :=
  match m with
  | [] => [(k, v)]
  | (k2, v2) :: rest =>
      if k2 = k then (k, v) :: rest else (k2, v2) :: mapSet rest k v

/-- mergeSchema from provider.go: iterates the source map and, for each
entry, fails with the duplicate-key error when the key is already in the
destination and inserts the entry otherwise.  The Go function mutates the
destination map in place, so the first component is the destination map's
state when the function returns: on success this is also the map Go returns;
on error Go returns nil, but the caller's map keeps the insertions already
made.  The iteration order of the Go source map, which the language leaves
unspecified, is the list order here; the second component is the key named
by the error, if any. -/
def mergeSchema {σ : Type} (src : List (String × σ))
    (dst : List (String × σ)) : List (String × σ) × Option String :=
  match src with
  | [] => (dst, none)
  | (k, v) :: rest =>
      if (mapLookup dst k).isSome then (dst, some k)
      else mergeSchema rest (dst ++ [(k, v)])

/-- mergeResource from provider.go: its body is the same as mergeSchema's at
the resource-map type, so it is modelled by the same generic function. -/
def mergeResource {ρ : Type} (src : List (String × ρ))
    (dst : List (String × ρ)) : List (String × ρ) × Option String :=
  mergeSchema src dst

/-- A sub-provider's registration surface: Name, Schema, Resources and
DataSources.  Version and Configure play no part in registration and are
omitted. -/
structure Subprovider (σ ρ : Type) where
  name : String
  schema : List (String × σ)
  resources : List (String × ρ)
  dataSources : List (String × ρ)
deriving DecidableEq

/-- The provider singleton's state: the aggregated schema, resources and
data-source maps and the registered sub-providers, mirroring the provider
struct.  The response cache and the ConfigureContextFunc closure carry no
registration state and are omitted. -/
structure ProviderState (σ ρ : Type) where
  schemaMap : List (String × σ)
  resourcesMap : List (String × ρ)
  dataSourcesMap : List (String × ρ)
  subs : List (String × Subprovider σ ρ)
deriving DecidableEq

/-- The provider state built at the top of the once.Do body before any
sub-provider is merged: a schema map holding the edgerc and config_section
entries (whose schema values `e` and `c` are opaque to this code) and empty
resource, data-source and sub-provider maps. -/
def baseProvider {σ ρ : Type} (e c : σ) : ProviderState σ ρ :=
  { schemaMap := [("edgerc", e), ("config_section", c)],
    resourcesMap := [], dataSourcesMap := [], subs := [] }

/-- One iteration of the sub-provider loop in the once.Do body: merge the
sub-provider's schema, resources and data-sources into the instance maps in
that order, panicking (`none`) on the first merge error, then register the
sub-provider under its name. -/
def initStep {σ ρ : Type} (st : ProviderState σ ρ) (p : Subprovider σ ρ) :
    Option (ProviderState σ ρ) :=
  match mergeSchema p.schema st.schemaMap with
  | (_, some _) => none
  | (s1, none) =>
    match mergeResource p.resources st.resourcesMap with
    | (_, some _) => none
    | (r1, none) =>
      match mergeResource p.dataSources st.dataSourcesMap with
      | (_, some _) => none
      | (d1, none) =>
          some { schemaMap := s1, resourcesMap := r1, dataSourcesMap := d1,
                 subs := mapSet st.subs p.name p }

/-- The sub-provider loop of the once.Do body over a list of
sub-providers. -/
def initLoop {σ ρ : Type} (st : ProviderState σ ρ) :
    List (Subprovider σ ρ) → Option (ProviderState σ ρ)
  | [] => some st
  | p :: rest => (initStep st p).bind (fun s2 => initLoop s2 rest)

/-- The once.Do initialization body of Provider: builds the base provider
state and merges every given sub-provider into it; `none` is the panic
raised on a duplicate key. -/
def initProvider {σ ρ : Type} (e c : σ)
    (provs : List (Subprovider σ ρ)) : Option (ProviderState σ ρ) :=
  initLoop (baseProvider e c) provs

/-- One call to the Provider function against the current global state
(`none` while the singleton is uninitialized).  sync.Once runs the
initialization body only when no instance exists yet; afterwards the call's
arguments are not read.  The result carries the new global state, the
instance the returned ProviderFunc yields, and whether the initialization
body executed during this call; `none` is the initialization panic, which
aborts the process. -/
def Provider {σ ρ : Type} (e c : σ) (st : Option (ProviderState σ ρ))
    (provs : List (Subprovider σ ρ)) :
    Option (ProviderState σ ρ × ProviderState σ ρ × Bool) :=
  match st with
  | some inst => some (inst, inst, false)
  | none =>
      match initProvider e c provs with
      | some inst => some (inst, inst, true)
      | none => none

/-- A sequence of Provider calls starting from a given global state: the
final global state, the instances returned to the callers in order, and the
number of times the initialization body executed; `none` when some call
panics. -/
def runCalls {σ ρ : Type} (e c : σ) (st : Option (ProviderState σ ρ)) :
    List (List (Subprovider σ ρ)) →
    Option (Option (ProviderState σ ρ) × List (ProviderState σ ρ) × Nat)
  | [] => some (st, [], 0)
  | ps :: rest =>
      match Provider e c st ps with
      | none => none
      | some (g, inst, ran) =>
          match runCalls e c (some g) rest with
          | none => none
          | some (g2, insts, n) =>
              some (g2, inst :: insts, (if ran then 1 else 0) + n)

end Akamai

namespace Akamai

/-! ## Reconciler theorems (claims C1 - C4, C7) -/

/-- C1: for every spec S with no pre-existing remote record at S's triple
(the first read reports not-found), Create issues exactly one CreateRecord
write whose processed data equals the transform applied to S's raw values. -/
theorem createOp_notFound_one_create
    (t : List String → String → List String)
    (reads : List ReadResult) (S : RecordSpec)
    (h : reads.head? = some ReadResult.notFound) :
    createOp t reads S =
      [WriteCall.createRecord (specBody S (t S.target S.recordType)) S.zone] ∧
    (createOp t reads S).countP (fun w => w.isCreate) = 1 := by
  match reads, h with
  | ReadResult.notFound :: rest, _ =>
      refine ⟨rfl, ?_⟩
      simp [createOp, List.countP, List.countP.go, WriteCall.isCreate]

/-- Witness for C1 at a concrete spec and read trace. -/
theorem createOp_notFound_one_create_witness :
    createOp (fun rs _ => rs) [ReadResult.notFound]
      { zone := "exampleterraform.io", name := "exampleterraform.io",
        recordType := "A", ttl := 300,
        target := ["10.0.0.2", "10.0.0.3"], active := true } =
      [WriteCall.createRecord
        { name := "exampleterraform.io", recordType := "A", ttl := 300,
          target := ["10.0.0.2", "10.0.0.3"], active := true }
        "exampleterraform.io"] ∧
    (createOp (fun rs _ => rs) [ReadResult.notFound]
      { zone := "exampleterraform.io", name := "exampleterraform.io",
        recordType := "A", ttl := 300,
        target := ["10.0.0.2", "10.0.0.3"], active := true }).countP
      (fun w => w.isCreate) = 1 :=
  createOp_notFound_one_create (fun rs _ => rs) [ReadResult.notFound]
    { zone := "exampleterraform.io", name := "exampleterraform.io",
      recordType := "A", ttl := 300,
      target := ["10.0.0.2", "10.0.0.3"], active := true } rfl

/-- C2: if a remote record already exists at S's triple and the transform of
its raw values is non-empty, Create issues exactly one UpdateRecord write and
no CreateRecord write: the existing record is merged, not a conflict. -/
theorem createOp_existing_one_update
    (t : List String → String → List String)
    (reads : List ReadResult) (S : RecordSpec) (ex : RecordBody)
    (h : reads.head? = some (ReadResult.found ex))
    (hne : t ex.target S.recordType ≠ []) :
    createOp t reads S =
      [WriteCall.updateRecord (specBody S (t ex.target S.recordType)) S.zone] ∧
    (createOp t reads S).countP (fun w => w.isUpdate) = 1 ∧
    (createOp t reads S).countP (fun w => w.isCreate) = 0 := by
  match reads, h with
  | ReadResult.found ex :: rest, h =>
      have hx : ex = ex := rfl
      cases h
      refine ⟨?_, ?_, ?_⟩ <;>
        simp [createOp, hne, List.countP, List.countP.go,
          WriteCall.isCreate, WriteCall.isUpdate]

/-- Witness for C2: transform is the identity, so the existing record's
non-empty values drive an UpdateRecord write. -/
theorem createOp_existing_one_update_witness :
    createOp (fun rs _ => rs)
      [ReadResult.found
        { name := "exampleterraform.io", recordType := "A", ttl := 300,
          target := ["10.0.0.2", "10.0.0.3"], active := true }]
      { zone := "exampleterraform.io", name := "exampleterraform.io",
        recordType := "A", ttl := 300,
        target := ["10.0.0.4", "10.0.0.5"], active := true } =
      [WriteCall.updateRecord
        { name := "exampleterraform.io", recordType := "A", ttl := 300,
          target := ["10.0.0.2", "10.0.0.3"], active := true }
        "exampleterraform.io"] ∧
    (createOp (fun rs _ => rs)
      [ReadResult.found
        { name := "exampleterraform.io", recordType := "A", ttl := 300,
          target := ["10.0.0.2", "10.0.0.3"], active := true }]
      { zone := "exampleterraform.io", name := "exampleterraform.io",
        recordType := "A", ttl := 300,
        target := ["10.0.0.4", "10.0.0.5"], active := true }).countP
      (fun w => w.isUpdate) = 1 ∧
    (createOp (fun rs _ => rs)
      [ReadResult.found
        { name := "exampleterraform.io", recordType := "A", ttl := 300,
          target := ["10.0.0.2", "10.0.0.3"], active := true }]
      { zone := "exampleterraform.io", name := "exampleterraform.io",
        recordType := "A", ttl := 300,
        target := ["10.0.0.4", "10.0.0.5"], active := true }).countP
      (fun w => w.isCreate) = 0 :=
  createOp_existing_one_update (fun rs _ => rs)
    [ReadResult.found
      { name := "exampleterraform.io", recordType := "A", ttl := 300,
        target := ["10.0.0.2", "10.0.0.3"], active := true }]
    { zone := "exampleterraform.io", name := "exampleterraform.io",
      recordType := "A", ttl := 300,
      target := ["10.0.0.4", "10.0.0.5"], active := true }
    { name := "exampleterraform.io", recordType := "A", ttl := 300,
      target := ["10.0.0.2", "10.0.0.3"], active := true }
    rfl (by decide)

/-- C3: if a remote record exists at S's triple but the transform of its raw
values is empty, Create takes the save path: the single write carries S's own
declared raw values, and (whenever those are non-empty) no write carries the
empty transformed value. -/
theorem createOp_save_path
    (t : List String → String → List String)
    (reads : List ReadResult) (S : RecordSpec) (ex : RecordBody)
    (h : reads.head? = some (ReadResult.found ex))
    (he : t ex.target S.recordType = []) :
    createOp t reads S =
      [WriteCall.createRecord (specBody S S.target) S.zone] ∧
    (∀ w ∈ createOp t reads S, w.data = S.target) ∧
    (S.target ≠ [] → ∀ w ∈ createOp t reads S, w.data ≠ []) := by
  match reads, h with
  | ReadResult.found ex :: rest, h =>
      cases h
      have h1 : createOp t (ReadResult.found ex :: rest) S =
          [WriteCall.createRecord (specBody S S.target) S.zone] := by
        simp [createOp, he]
      refine ⟨h1, ?_, ?_⟩
      · intro w hw
        rw [h1, List.mem_singleton] at hw
        subst hw
        simp [WriteCall.data, specBody]
      · intro hne w hw
        rw [h1, List.mem_singleton] at hw
        subst hw
        simpa [WriteCall.data, specBody] using hne

/-- Witness for C3: a transform that empties the existing values forces the
save path carrying the spec's own raw values. -/
theorem createOp_save_path_witness :
    createOp (fun _ _ => [])
      [ReadResult.found
        { name := "exampleterraform.io", recordType := "A", ttl := 300,
          target := ["10.0.0.2", "10.0.0.3"], active := true }]
      { zone := "exampleterraform.io", name := "exampleterraform.io",
        recordType := "A", ttl := 300,
        target := ["10.0.0.4", "10.0.0.5"], active := true } =
      [WriteCall.createRecord
        { name := "exampleterraform.io", recordType := "A", ttl := 300,
          target := ["10.0.0.4", "10.0.0.5"], active := true }
        "exampleterraform.io"] ∧
    (∀ w ∈ createOp (fun _ _ => [])
      [ReadResult.found
        { name := "exampleterraform.io", recordType := "A", ttl := 300,
          target := ["10.0.0.2", "10.0.0.3"], active := true }]
      { zone := "exampleterraform.io", name := "exampleterraform.io",
        recordType := "A", ttl := 300,
        target := ["10.0.0.4", "10.0.0.5"], active := true },
      w.data = ["10.0.0.4", "10.0.0.5"]) ∧
    ((["10.0.0.4", "10.0.0.5"] : List String) ≠ [] →
      ∀ w ∈ createOp (fun _ _ => [])
        [ReadResult.found
          { name := "exampleterraform.io", recordType := "A", ttl := 300,
            target := ["10.0.0.2", "10.0.0.3"], active := true }]
        { zone := "exampleterraform.io", name := "exampleterraform.io",
          recordType := "A", ttl := 300,
          target := ["10.0.0.4", "10.0.0.5"], active := true },
        w.data ≠ []) :=
  createOp_save_path (fun _ _ => [])
    [ReadResult.found
      { name := "exampleterraform.io", recordType := "A", ttl := 300,
        target := ["10.0.0.2", "10.0.0.3"], active := true }]
    { zone := "exampleterraform.io", name := "exampleterraform.io",
      recordType := "A", ttl := 300,
      target := ["10.0.0.4", "10.0.0.5"], active := true }
    { name := "exampleterraform.io", recordType := "A", ttl := 300,
      target := ["10.0.0.2", "10.0.0.3"], active := true }
    rfl rfl

/-- C4: when the first read of the target triple reports not-found and a
later read within the same logical Create returns an existing record, the
reconciler still issues exactly one CreateRecord write and no UpdateRecord
write: the initial not-found signal decides the branch. -/
theorem createOp_first_read_decides
    (t : List String → String → List String)
    (rest : List ReadResult) (S : RecordSpec) (r : RecordBody)
    (_h : ReadResult.found r ∈ rest) :
    (createOp t (ReadResult.notFound :: rest) S).countP
      (fun w => w.isCreate) = 1 ∧
    (createOp t (ReadResult.notFound :: rest) S).countP
      (fun w => w.isUpdate) = 0 := by
  constructor <;>
    simp [createOp, List.countP, List.countP.go,
      WriteCall.isCreate, WriteCall.isUpdate]

/-- Witness for C4 at the SOA scenario: not-found first, the SOA record found
on the second read, yet exactly one CreateRecord and no UpdateRecord. -/
theorem createOp_first_read_decides_witness :
    (createOp (fun rs _ => rs)
      (ReadResult.notFound ::
        [ReadResult.notFound,
         ReadResult.found
          { name := "exampleterraform.io", recordType := "SOA", ttl := 300,
            target := ["ns1.exampleterraform.io root@exampleterraform.io 123456789 3600 600 3600 3600"],
            active := false }])
      { zone := "exampleterraform.io", name := "@", recordType := "SOA",
        ttl := 300,
        target := ["ns1.exampleterraform.io root@exampleterraform.io 123456789 3600 600 3600 3600"],
        active := false }).countP (fun w => w.isCreate) = 1 ∧
    (createOp (fun rs _ => rs)
      (ReadResult.notFound ::
        [ReadResult.notFound,
         ReadResult.found
          { name := "exampleterraform.io", recordType := "SOA", ttl := 300,
            target := ["ns1.exampleterraform.io root@exampleterraform.io 123456789 3600 600 3600 3600"],
            active := false }])
      { zone := "exampleterraform.io", name := "@", recordType := "SOA",
        ttl := 300,
        target := ["ns1.exampleterraform.io root@exampleterraform.io 123456789 3600 600 3600 3600"],
        active := false }).countP (fun w => w.isUpdate) = 0 :=
  createOp_first_read_decides (fun rs _ => rs)
    [ReadResult.notFound,
     ReadResult.found
      { name := "exampleterraform.io", recordType := "SOA", ttl := 300,
        target := ["ns1.exampleterraform.io root@exampleterraform.io 123456789 3600 600 3600 3600"],
        active := false }]
    { zone := "exampleterraform.io", name := "@", recordType := "SOA",
      ttl := 300,
      target := ["ns1.exampleterraform.io root@exampleterraform.io 123456789 3600 600 3600 3600"],
      active := false }
    { name := "exampleterraform.io", recordType := "SOA", ttl := 300,
      target := ["ns1.exampleterraform.io root@exampleterraform.io 123456789 3600 600 3600 3600"],
      active := false }
    (by simp)

/-- C7: Update is idempotent: invoking it twice in succession with the spec
unchanged yields two structurally identical write payloads. -/
theorem updateOp_idempotent
    (t : List String → String → List String) (S : RecordSpec) :
    ∃ w, updateRun t S 2 = [w, w] :=
  ⟨updateOp t S, rfl⟩

/-! ## Association-list and merge lemmas -/

theorem mapLookup_append_isSome {α : Type} (a b : List (String × α))
    (k : String) :
    (mapLookup (a ++ b) k).isSome =
      ((mapLookup a k).isSome || (mapLookup b k).isSome) := by
  induction a with
  | nil => simp [mapLookup]
  | cons q rest ih =>
      obtain ⟨k2, v⟩ := q
      by_cases h : k2 = k <;> simp [mapLookup, h, ih]

theorem mapLookup_append_left {α : Type} (a b : List (String × α))
    (k : String) (v : α) (h : mapLookup a k = some v) :
    mapLookup (a ++ b) k = some v := by
  induction a with
  | nil => simp [mapLookup] at h
  | cons q rest ih =>
      obtain ⟨k2, v2⟩ := q
      by_cases hk : k2 = k
      · simp [mapLookup, hk] at h ⊢
        exact h
      · simp [mapLookup, hk] at h ⊢
        exact ih h

theorem mapLookup_isSome_of_mem {α : Type} (m : List (String × α))
    (p : String × α) (h : p ∈ m) : (mapLookup m p.1).isSome := by
  induction m with
  | nil => cases h
  | cons q rest ih =>
      obtain ⟨k2, v2⟩ := q
      by_cases hk : k2 = p.1
      · simp [mapLookup, hk]
      · rcases List.mem_cons.mp h with h | h
        · rw [h] at hk
          exact absurd rfl hk
        · simpa [mapLookup, hk] using ih h

theorem mergeSchema_ok {σ : Type} (src dst : List (String × σ))
    (h : (mergeSchema src dst).2 = none) :
    (mergeSchema src dst).1 = dst ++ src := by
  induction src generalizing dst with
  | nil => simp [mergeSchema]
  | cons q rest ih =>
      obtain ⟨k, v⟩ := q
      by_cases hd : (mapLookup dst k).isSome
      · simp [mergeSchema, hd] at h
      · rw [mergeSchema] at h ⊢
        rw [if_neg hd] at h ⊢
        rw [ih _ h]
        simp

theorem mergeSchema_shared_error {σ : Type} (src dst : List (String × σ))
    (k : String) (h1 : (mapLookup src k).isSome)
    (h2 : (mapLookup dst k).isSome) :
    (mergeSchema src dst).2.isSome = true := by
  induction src generalizing dst with
  | nil => simp [mapLookup] at h1
  | cons q rest ih =>
      obtain ⟨k0, v0⟩ := q
      by_cases hd : (mapLookup dst k0).isSome
      · simp [mergeSchema, hd]
      · rw [mergeSchema, if_neg hd]
        by_cases hk : k0 = k
        · rw [hk] at hd
          exact absurd h2 hd
        · rw [mapLookup, if_neg hk] at h1
          obtain ⟨v, hv⟩ := Option.isSome_iff_exists.mp h2
          exact ih _ h1 (by rw [mapLookup_append_left dst _ k v hv]; rfl)

theorem mergeSchema_error_shared {σ : Type} (src dst : List (String × σ))
    (hnd : (src.map Prod.fst).Nodup)
    (h : (mergeSchema src dst).2.isSome = true) :
    ∃ p ∈ src, (mapLookup dst p.1).isSome := by
  induction src generalizing dst with
  | nil => simp [mergeSchema] at h
  | cons q rest ih =>
      obtain ⟨k, v⟩ := q
      rw [List.map_cons, List.nodup_cons] at hnd
      by_cases hd : (mapLookup dst k).isSome
      · exact ⟨(k, v), List.mem_cons_self _ _, hd⟩
      · rw [mergeSchema, if_neg hd] at h
        obtain ⟨p, hp, hps⟩ := ih _ hnd.2 h
        refine ⟨p, List.mem_cons_of_mem _ hp, ?_⟩
        have hne : k ≠ p.1 := by
          intro hkp
          apply hnd.1
          rw [hkp]
          exact List.mem_map.mpr ⟨p, hp, rfl⟩
        rw [mapLookup_append_isSome] at hps
        simpa [mapLookup, hne] using hps

/-! ## Provider initialization lemmas -/

theorem initStep_some {σ ρ : Type} (st s2 : ProviderState σ ρ)
    (p : Subprovider σ ρ) (h : initStep st p = some s2) :
    s2.schemaMap = st.schemaMap ++ p.schema ∧
    s2.resourcesMap = st.resourcesMap ++ p.resources ∧
    s2.dataSourcesMap = st.dataSourcesMap ++ p.dataSources := by
  unfold initStep at h
  rcases hs : mergeSchema p.schema st.schemaMap with ⟨s1, e1⟩
  rw [hs] at h
  cases e1 with
  | some m => simp at h
  | none =>
      rcases hr : mergeResource p.resources st.resourcesMap with ⟨r1, e2⟩
      rw [hr] at h
      cases e2 with
      | some m => simp at h
      | none =>
          rcases hd : mergeResource p.dataSources st.dataSourcesMap with ⟨d1, e3⟩
          rw [hd] at h
          cases e3 with
          | some m => simp at h
          | none =>
              have hs1 : s1 = st.schemaMap ++ p.schema := by
                have := mergeSchema_ok p.schema st.schemaMap (by rw [hs])
                rwa [hs] at this
              have hr1 : r1 = st.resourcesMap ++ p.resources := by
                have := mergeSchema_ok p.resources st.resourcesMap
                  (by rw [show mergeSchema p.resources st.resourcesMap =
                    mergeResource p.resources st.resourcesMap from rfl, hr])
                rwa [show mergeSchema p.resources st.resourcesMap =
                  mergeResource p.resources st.resourcesMap from rfl, hr] at this
              have hd1 : d1 = st.dataSourcesMap ++ p.dataSources := by
                have := mergeSchema_ok p.dataSources st.dataSourcesMap
                  (by rw [show mergeSchema p.dataSources st.dataSourcesMap =
                    mergeResource p.dataSources st.dataSourcesMap from rfl, hd])
                rwa [show mergeSchema p.dataSources st.dataSourcesMap =
                  mergeResource p.dataSources st.dataSourcesMap from rfl, hd] at this
              cases h
              exact ⟨hs1, hr1, hd1⟩

theorem initStep_schema_conflict {σ ρ : Type} (st : ProviderState σ ρ)
    (p : Subprovider σ ρ) (k : String)
    (h1 : (mapLookup p.schema k).isSome)
    (h2 : (mapLookup st.schemaMap k).isSome) :
    initStep st p = none := by
  have herr := mergeSchema_shared_error p.schema st.schemaMap k h1 h2
  unfold initStep
  rcases hs : mergeSchema p.schema st.schemaMap with ⟨s1, e1⟩
  rw [hs] at herr
  cases e1 with
  | some m => rfl
  | none => simp at herr

theorem initStep_resources_conflict {σ ρ : Type} (st : ProviderState σ ρ)
    (p : Subprovider σ ρ) (k : String)
    (h1 : (mapLookup p.resources k).isSome)
    (h2 : (mapLookup st.resourcesMap k).isSome) :
    initStep st p = none := by
  have herr := mergeSchema_shared_error p.resources st.resourcesMap k h1 h2
  unfold initStep
  rcases hs : mergeSchema p.schema st.schemaMap with ⟨s1, e1⟩
  cases e1 with
  | some m => rfl
  | none =>
      rcases hr : mergeResource p.resources st.resourcesMap with ⟨r1, e2⟩
      rw [show mergeSchema p.resources st.resourcesMap =
        mergeResource p.resources st.resourcesMap from rfl, hr] at herr
      cases e2 with
      | some m => rfl
      | none => simp at herr

theorem initStep_dataSources_conflict {σ ρ : Type} (st : ProviderState σ ρ)
    (p : Subprovider σ ρ) (k : String)
    (h1 : (mapLookup p.dataSources k).isSome)
    (h2 : (mapLookup st.dataSourcesMap k).isSome) :
    initStep st p = none := by
  have herr := mergeSchema_shared_error p.dataSources st.dataSourcesMap k h1 h2
  unfold initStep
  rcases hs : mergeSchema p.schema st.schemaMap with ⟨s1, e1⟩
  cases e1 with
  | some m => rfl
  | none =>
      rcases hr : mergeResource p.resources st.resourcesMap with ⟨r1, e2⟩
      cases e2 with
      | some m => rfl
      | none =>
          rcases hd : mergeResource p.dataSources st.dataSourcesMap with ⟨d1, e3⟩
          rw [show mergeSchema p.dataSources st.dataSourcesMap =
            mergeResource p.dataSources st.dataSourcesMap from rfl, hd] at herr
          cases e3 with
          | some m => rfl
          | none => simp at herr

theorem initLoop_append {σ ρ : Type} (st : ProviderState σ ρ)
    (xs ys : List (Subprovider σ ρ)) :
    initLoop st (xs ++ ys) =
      (initLoop st xs).bind (fun s2 => initLoop s2 ys) := by
  induction xs generalizing st with
  | nil => simp [initLoop]
  | cons p xs ih =>
      rw [List.cons_append, initLoop, initLoop]
      cases initStep st p with
      | none => rfl
      | some s2 => simpa using ih s2

theorem initLoop_some_maps {σ ρ : Type} (provs : List (Subprovider σ ρ))
    (st st2 : ProviderState σ ρ) (h : initLoop st provs = some st2) :
    st2.schemaMap =
      st.schemaMap ++ (provs.map Subprovider.schema).flatten ∧
    st2.resourcesMap =
      st.resourcesMap ++ (provs.map Subprovider.resources).flatten ∧
    st2.dataSourcesMap =
      st.dataSourcesMap ++ (provs.map Subprovider.dataSources).flatten := by
  induction provs generalizing st with
  | nil =>
      rw [initLoop] at h
      cases h
      simp
  | cons p rest ih =>
      rw [initLoop] at h
      cases hstep : initStep st p with
      | none => rw [hstep] at h; simp at h
      | some s1 =>
          rw [hstep] at h
          simp only [Option.some_bind] at h
          obtain ⟨e1, e2, e3⟩ := initStep_some st s1 p hstep
          obtain ⟨f1, f2, f3⟩ := ih s1 h
          refine ⟨?_, ?_, ?_⟩ <;>
            simp [f1, f2, f3, e1, e2, e3, List.append_assoc]

/-! ## Provider registry theorems (claims C5, C6, C8 - C10) -/

/-- C5: when two sub-providers passed to Provider register the same schema
key, or the same resource or data-source key, provider initialization
panics (modelled as `none`) instead of continuing with a degraded
provider. -/
theorem Provider_duplicate_key_panics {σ ρ : Type} (e c : σ)
    (l1 l2 l3 : List (Subprovider σ ρ)) (p q : Subprovider σ ρ) (k : String)
    (h : ((mapLookup p.schema k).isSome ∧ (mapLookup q.schema k).isSome) ∨
         ((mapLookup p.resources k).isSome ∧
           (mapLookup q.resources k).isSome) ∨
         ((mapLookup p.dataSources k).isSome ∧
           (mapLookup q.dataSources k).isSome)) :
    initProvider e c (l1 ++ p :: l2 ++ q :: l3) = none := by
  unfold initProvider
  have hsplit : l1 ++ p :: l2 ++ q :: l3 = (l1 ++ p :: l2) ++ q :: l3 := by
    simp
  rw [hsplit, initLoop_append]
  cases hxs : initLoop (baseProvider e c) (l1 ++ p :: l2) with
  | none => rfl
  | some stM =>
      simp only [Option.some_bind]
      obtain ⟨hm1, hm2, hm3⟩ := initLoop_some_maps _ _ _ hxs
      have hstep : initStep stM q = none := by
        rcases h with ⟨hp, hq⟩ | ⟨hp, hq⟩ | ⟨hp, hq⟩
        · refine initStep_schema_conflict stM q k hq ?_
          rw [hm1, List.map_append, List.flatten_append, List.map_cons,
            List.flatten_cons]
          simp [mapLookup_append_isSome, hp]
        · refine initStep_resources_conflict stM q k hq ?_
          rw [hm2, List.map_append, List.flatten_append, List.map_cons,
            List.flatten_cons]
          simp [mapLookup_append_isSome, hp]
        · refine initStep_dataSources_conflict stM q k hq ?_
          rw [hm3, List.map_append, List.flatten_append, List.map_cons,
            List.flatten_cons]
          simp [mapLookup_append_isSome, hp]
      rw [initLoop, hstep]
      rfl

/-- Witness for C5: two sub-providers registering the same schema key make
initialization panic. -/
theorem Provider_duplicate_key_panics_witness :
    initProvider (σ := Nat) (ρ := Nat) 0 0
      ([] ++ { name := "dns", schema := [("dup", 1)],
               resources := [], dataSources := [] } ::
        [] ++ { name := "appsec", schema := [("dup", 2)],
                resources := [], dataSources := [] } :: []) = none :=
  Provider_duplicate_key_panics 0 0 [] [] []
    { name := "dns", schema := [("dup", 1)],
      resources := [], dataSources := [] }
    { name := "appsec", schema := [("dup", 2)],
      resources := [], dataSources := [] }
    "dup" (Or.inl ⟨by decide, by decide⟩)

theorem runCalls_initialized {σ ρ : Type} (e c : σ)
    (inst : ProviderState σ ρ) (calls : List (List (Subprovider σ ρ))) :
    runCalls e c (some inst) calls =
      some (some inst, List.replicate calls.length inst, 0) := by
  induction calls with
  | nil => rfl
  | cons ps rest ih =>
      rw [runCalls]
      simp only [Provider, ih]
      simp [List.replicate]

/-- C6: the provider instance is a process-wide singleton initialized at
most once: across any non-empty sequence of Provider calls that does not
panic, the once.Do initialization body runs exactly once and every call
returns the same underlying instance. -/
theorem Provider_singleton_instance {σ ρ : Type} (e c : σ)
    (calls : List (List (Subprovider σ ρ)))
    (g : Option (ProviderState σ ρ)) (insts : List (ProviderState σ ρ))
    (n : Nat) (hne : calls ≠ [])
    (h : runCalls e c none calls = some (g, insts, n)) :
    n = 1 ∧ ∃ inst, g = some inst ∧
      insts = List.replicate calls.length inst := by
  match calls, hne with
  | ps :: rest, _ =>
      cases hInit : initProvider e c ps with
      | none =>
          rw [runCalls] at h
          simp only [Provider, hInit] at h
          exact Option.noConfusion h
      | some inst =>
          rw [runCalls] at h
          simp only [Provider, hInit, runCalls_initialized] at h
          cases h
          refine ⟨by simp, inst, rfl, ?_⟩
          simp [List.replicate]

/-- Witness for C6: two calls, the first with no sub-providers; the body
runs once and both callers get the same instance. -/
theorem Provider_singleton_instance_witness :
    (1 : Nat) = 1 ∧ ∃ inst : ProviderState Nat Nat,
      (some (baseProvider 0 0) : Option (ProviderState Nat Nat)) =
        some inst ∧
      [baseProvider 0 0, baseProvider 0 0] =
        List.replicate
          ([([] : List (Subprovider Nat Nat)), []]).length inst :=
  Provider_singleton_instance 0 0 [[], []] (some (baseProvider 0 0))
    [baseProvider 0 0, baseProvider 0 0] 1 (by simp) (by decide)

/-- C8: every Provider call after the first silently discards its
sub-provider arguments: whatever the second and later calls pass, they
merge and register nothing and cannot panic (the initialization body runs
only for the first call), and every one of them returns the instance built
from the first call's sub-providers alone. -/
theorem Provider_later_calls_ignored {σ ρ : Type} (e c : σ)
    (ps1 : List (Subprovider σ ρ)) (rest : List (List (Subprovider σ ρ)))
    (inst : ProviderState σ ρ)
    (h : initProvider e c ps1 = some inst) :
    runCalls e c none (ps1 :: rest) =
      some (some inst, inst :: List.replicate rest.length inst, 1) := by
  rw [runCalls]
  simp [Provider, h, runCalls_initialized]

/-- Witness for C8: the second and third calls pass sub-providers whose
schema keys collide, yet no panic or registration happens and the first
call's instance is returned to both. -/
theorem Provider_later_calls_ignored_witness :
    runCalls (σ := Nat) (ρ := Nat) 0 0 none
      ([] ::
       [[{ name := "dns", schema := [("dup", 1)],
           resources := [], dataSources := [] },
         { name := "appsec", schema := [("dup", 2)],
           resources := [], dataSources := [] }],
        [{ name := "dns", schema := [("dup", 1)],
           resources := [], dataSources := [] }]]) =
      some (some (baseProvider 0 0),
        baseProvider 0 0 ::
          List.replicate
            ([[{ name := "dns", schema := [("dup", 1)],
                 resources := [], dataSources := [] },
               { name := "appsec", schema := [("dup", 2)],
                 resources := [], dataSources := [] }],
              [{ name := "dns", schema := [("dup", 1)],
                 resources := [], dataSources := [] }]] :
              List (List (Subprovider Nat Nat))).length
            (baseProvider 0 0), 1) :=
  Provider_later_calls_ignored 0 0 []
    [[{ name := "dns", schema := [("dup", 1)],
        resources := [], dataSources := [] },
      { name := "appsec", schema := [("dup", 2)],
        resources := [], dataSources := [] }],
     [{ name := "dns", schema := [("dup", 1)],
        resources := [], dataSources := [] }]]
    (baseProvider 0 0) rfl

/-- C9: mergeSchema errors exactly when the source and destination maps
share a key; on success the returned map is the destination extended with
the source entries: its key set is the union of the two key sets and every
pre-existing destination entry is unchanged.  mergeResource is the same
function at the resource-map type. -/
theorem mergeSchema_error_iff_shared {σ : Type}
    (src dst : List (String × σ)) (hnd : (src.map Prod.fst).Nodup) :
    ((mergeSchema src dst).2.isSome ↔
      ∃ p ∈ src, (mapLookup dst p.1).isSome) ∧
    ((mergeSchema src dst).2 = none →
      (mergeSchema src dst).1 = dst ++ src ∧
      (∀ k, (mapLookup (mergeSchema src dst).1 k).isSome =
        ((mapLookup dst k).isSome || (mapLookup src k).isSome)) ∧
      (∀ k v, mapLookup dst k = some v →
        mapLookup (mergeSchema src dst).1 k = some v)) ∧
    mergeResource src dst = mergeSchema src dst := by
  refine ⟨⟨fun h => mergeSchema_error_shared src dst hnd h, ?_⟩, ?_, rfl⟩
  · rintro ⟨p, hp, hps⟩
    exact mergeSchema_shared_error src dst p.1
      (mapLookup_isSome_of_mem src p hp) hps
  · intro hok
    have hres := mergeSchema_ok src dst hok
    refine ⟨hres, ?_, ?_⟩
    · intro k
      rw [hres, mapLookup_append_isSome]
    · intro k v hv
      rw [hres]
      exact mapLookup_append_left dst src k v hv

/-- Witness for C9 on disjoint concrete maps: no error and the destination
extended with the source is returned. -/
theorem mergeSchema_error_iff_shared_witness :
    ((mergeSchema [("a", 1)] [("b", 2)]).2.isSome ↔
      ∃ p ∈ [("a", 1)], (mapLookup [("b", 2)] p.1).isSome) ∧
    ((mergeSchema [("a", 1)] [("b", 2)]).2 = none →
      (mergeSchema [("a", 1)] [("b", 2)]).1 = [("b", 2)] ++ [("a", 1)] ∧
      (∀ k, (mapLookup (mergeSchema [("a", 1)] [("b", 2)]).1 k).isSome =
        ((mapLookup [("b", 2)] k).isSome ||
          (mapLookup [("a", 1)] k).isSome)) ∧
      (∀ k v, mapLookup [("b", 2)] k = some v →
        mapLookup (mergeSchema [("a", 1)] [("b", 2)]).1 k = some v)) ∧
    mergeResource [("a", 1)] [("b", 2)] = mergeSchema [("a", 1)] [("b", 2)] :=
  mergeSchema_error_iff_shared [("a", 1)] [("b", 2)] (by decide)

/-- C10: mergeSchema (and mergeResource, the same function) mutates the
destination in place and is not atomic on failure: when it reports a
duplicate key, the destination's state is the original destination followed
by every source entry iterated before the duplicate, so those entries are
already inserted even though an error is returned. -/
theorem mergeSchema_error_state {σ : Type} (src dst : List (String × σ))
    (k : String) (h : (mergeSchema src dst).2 = some k) :
    ∃ pre v post, src = pre ++ (k, v) :: post ∧
      (mergeSchema src dst).1 = dst ++ pre ∧
      ∀ p ∈ pre, p ∈ (mergeSchema src dst).1 := by
  induction src generalizing dst with
  | nil => simp [mergeSchema] at h
  | cons q rest ih =>
      obtain ⟨k0, v0⟩ := q
      by_cases hd : (mapLookup dst k0).isSome
      · rw [mergeSchema, if_pos hd] at h ⊢
        cases h
        exact ⟨[], v0, rest, rfl, by simp, by simp⟩
      · rw [mergeSchema, if_neg hd] at h ⊢
        obtain ⟨pre, v, post, h1, h2, h3⟩ := ih _ h
        refine ⟨(k0, v0) :: pre, v, post, by simp [h1], ?_, ?_⟩
        · rw [h2]
          simp
        · intro p hp
          rcases List.mem_cons.mp hp with hp | hp
          · rw [h2, hp]
            simp
          · exact h3 p hp

/-- Witness for C10: the error on key b is reported only after the entry
for a has been inserted, so the destination map has changed. -/
theorem mergeSchema_error_state_witness :
    ∃ pre v post, [("a", 1), ("b", 2)] = pre ++ ("b", v) :: post ∧
      (mergeSchema [("a", 1), ("b", 2)] [("b", 9)]).1 = [("b", 9)] ++ pre ∧
      ∀ p ∈ pre, p ∈ (mergeSchema [("a", 1), ("b", 2)] [("b", 9)]).1 :=
  mergeSchema_error_state [("a", 1), ("b", 2)] [("b", 9)] "b" (by decide)

end Akamai
